import Mathlib

/-!
Shallow embedding of the OAuth authentication subsystem of a FastAPI service:
`app/security.py`, `app/dependencies.py`, `app/api/v1/auth_routes.py`,
`app/services/database_service.py`, `app/services/redis_service.py`.

Modelling conventions:
* Python exceptions that cross function boundaries are an explicit `Exc` value
  threaded through `Except`.  An exception that escapes every handler in the
  route (so that the framework turns it into an HTTP 500) is a `Resp.crash`.
* The JWT library verdict is embedded in the `Jwt` structure: `sigOk = false`
  models a malformed or tampered token (the library raises `DecodeError`),
  and the embedded `exp` is compared against the current time (the library
  raises `ExpiredSignatureError`).  `security.py` uses PyJWT exception
  classes; `dependencies.py` catches `jose.JWTError`, a distinct class, which
  is the constructor `Exc.joseJWT` here — never raised by this code base.
* The redis key space is partitioned by the prefixes `oauth_state:` and
  `session:`; since the prefixing is injective the cache is modelled as two
  separate association lists.  The backend regimes differ observably and are
  modelled separately: `disconnected` is `self.redis_client is None` (every
  wrapper call returns `None`), `fake` is the `FakeRedisClient` substituted
  when the initial connect fails (never raises; `get` returns `bytes`),
  `live` is a healthy real client created with `decode_responses=True`
  (`get` returns `str`, so the callers' `.decode()` raises `AttributeError`),
  and `liveFailing` is a real client whose commands raise at runtime — the
  `RedisClient` wrapper does not catch such errors, so they propagate.
* Machine-generated identifiers (user ids, session ids) are drawn from
  explicit counters in the durable-store state; time is a `Nat` of seconds.
-/

/-- JWT claim set carried by `create_access_token` / `decode_access_token`:
`{"sub": str(user.id), "username": ..., "email": ..., "exp": ...}`.
`payload.get(k)` returns `None` for an absent key, hence the `Option`s. -/
structure Payload where
  sub : Option String
  username : Option String
  email : Option String
  deriving Repr, DecidableEq

/-- A bearer token as the verifying library sees it: the claim set, the
embedded expiry, and whether the signature verifies under the server secret
(`sigOk = false` covers malformed, truncated and tampered tokens). -/
structure Jwt where
  payload : Payload
  exp : Nat
  sigOk : Bool
  deriving Repr, DecidableEq

/-- PyJWT exception classes raised by `security.decode_access_token`. -/
inductive JwtExcKind where
  | expiredSignature
  | decodeError
  | invalidTokenError
  deriving Repr, DecidableEq

/-- The distinct `detail` strings of the `HTTPException`s raised by the
routes and dependencies (one constructor per message constant). -/
inductive ErrDetail where
  | invalidToken
  | invalidTokenMissingUserId
  | notAuthenticated
  | invalidAuthCredentials
  | unsupportedProvider
  | oauthProviderNotConfigured (provider : String)
  | oauthErrorParam (e : String)
  | invalidState
  | oauthAuthFailed (msg : String)
  | noActiveSession
  | sessionExpiredOrInvalid
  deriving Repr, DecidableEq

/-- Exceptions that cross function boundaries in the Python code.
`attributeError` is what `.decode()` raises on a `str` (the live redis
client is created with `decode_responses=True` and returns `str`);
`connectionError` stands for the runtime errors a live redis client's
commands raise when the connection is lost after startup. -/
inductive Exc where
  | httpExc (status : Nat) (detail : ErrDetail) (www : Option String)
  | pyjwt (k : JwtExcKind)
  | joseJWT
  | valueError
  | dbError
  | attributeError
  | connectionError
  deriving Repr, DecidableEq

/-- `except JWTError` in `dependencies.py` catches exactly `jose.JWTError`;
the PyJWT exceptions raised by `security.py` are a different class hierarchy
and do not match. -/
def isJoseJWTError : Exc → Bool
  | .joseJWT => true
  | _ => false

/-- An HTTP outcome of a route: a handler return value, an `HTTPException`
rendered by the framework, or an uncaught exception (framework 500). -/
inductive Resp (α : Type) where
  | ok (a : α)
  | err (status : Nat) (detail : ErrDetail) (www : Option String)
  | crash (e : Exc)
  deriving Repr, DecidableEq

/-- How the framework renders an exception escaping the handler body. -/
def respOfExc {α : Type} : Exc → Resp α
  | .httpExc s d w => .err s d w
  | e => .crash e

/-- The pydantic `User` model (`app/models.py`).  `username` is `Option`
because the token path passes `payload.get("username")` through unchecked. -/
structure User where
  id : Nat
  username : Option String
  email : Option String
  is_active : Bool
  deriving Repr, DecidableEq

/-- The normalized external identity (`app/models.py` `OAuthUser`). -/
structure OAuthUser where
  provider : String
  provider_id : String
  email : String
  username : Option String
  deriving Repr, DecidableEq

/-- A row of the Prisma `User` table. -/
structure UserRec where
  id : Nat
  username : String
  email : Option String
  isActive : Bool
  deriving Repr, DecidableEq

/-- A row of the Prisma `OAuthAccount` table (unique on (provider, providerId),
foreign key `userId` to `User`). -/
structure OAuthAccountRec where
  provider : String
  providerId : String
  email : String
  userId : Nat
  deriving Repr, DecidableEq

/-- A row of the Prisma `Session` table. -/
structure SessionRec where
  id : Nat
  userId : Nat
  expiresAt : Nat
  deriving Repr, DecidableEq

/-- The durable store.  `up = false` models the Prisma client raising on
every query (each `database_service` method catches locally or re-raises as
its source does).  `nextUserId` / `nextSessionId` model id generation. -/
structure DB where
  up : Bool
  users : List UserRec
  oauthAccounts : List OAuthAccountRec
  sessions : List SessionRec
  nextUserId : Nat
  nextSessionId : Nat
  deriving Repr, DecidableEq

def toUser (r : UserRec) : User :=
  { id := r.id, username := some r.username, email := r.email, is_active := r.isActive }

def ACCESS_TOKEN_EXPIRE_MINUTES : Nat := 30

/-- generic association-list primitives shared by both cache key families -/
def getAssoc {κ ν : Type} [BEq κ] (l : List (κ × ν)) (k : κ) : Option ν :=
  (l.find? (fun kv => kv.1 == k)).map (·.2)

def setAssoc {κ ν : Type} [BEq κ] (l : List (κ × ν)) (k : κ) (v : ν) : List (κ × ν) :=
  (k, v) :: l.filter (fun kv => !(kv.1 == k))

def delAssoc {κ ν : Type} [BEq κ] (l : List (κ × ν)) (k : κ) : List (κ × ν) :=
  l.filter (fun kv => !(kv.1 == k))

/-- The denormalized snapshot mirrored to the cache at callback time
(`json.dumps({"user_id": ..., "username": ..., "email": ...})`). -/
structure SessionSnap where
  user_id : Nat
  username : Option String
  email : Option String
  deriving Repr, DecidableEq

/-- A cached session value: a well-formed JSON snapshot, or bytes on which
`json.loads` / the key accesses fail (`JSONDecodeError` / `KeyError`). -/
inductive CacheEntry where
  | snap (s : SessionSnap)
  | malformed
  deriving Repr, DecidableEq

/-- Contents of the cache, split along the injective key prefixes
`oauth_state:{nonce}` and `session:{session_id}`. -/
structure CacheData where
  oauthStates : List (String × String)
  sessions : List (Nat × CacheEntry)
  deriving Repr, DecidableEq

/-- A value as returned by the underlying client's `get`: the live client is
created with `decode_responses=True` and returns `str`; the
`FakeRedisClient` re-encodes and returns `bytes`.  The callers invoke
`.decode()` on it, which succeeds on `bytes` and raises `AttributeError`
on `str`. -/
inductive RedisReply (α : Type) where
  | str (v : α)
  | bytes (v : α)
  deriving Repr, DecidableEq

/-- Python `.decode()` on a get result. -/
def decodeReply {α : Type} : RedisReply α → Except Exc α
  | .bytes v => .ok v
  | .str _ => .error .attributeError

/-- The `RedisClient` wrapper state.  `disconnected`: `redis_client is None`,
every wrapper call returns `None` without touching a backend.  `fake`: the
`FakeRedisClient` substituted when the initial connect fails; never raises,
`get` returns `bytes`.  `live`: a healthy real client; `get` returns `str`.
`liveFailing`: a real client whose commands raise at runtime — the wrapper
does not catch these, so each operation propagates the exception. -/
inductive RedisBackend where
  | disconnected
  | fake (data : CacheData)
  | live (data : CacheData)
  | liveFailing
  deriving Repr, DecidableEq

def oauthStatesOf : RedisBackend → List (String × String)
  | .disconnected => []
  | .fake d => d.oauthStates
  | .live d => d.oauthStates
  | .liveFailing => []

def redisGetState (b : RedisBackend) (nonce : String) :
    Except Exc (Option (RedisReply String)) :=
  match b with
  | .disconnected => .ok none
  | .fake d => .ok ((getAssoc d.oauthStates nonce).map .bytes)
  | .live d => .ok ((getAssoc d.oauthStates nonce).map .str)
  | .liveFailing => .error .connectionError

def redisSetState : RedisBackend → String → String → Except Exc RedisBackend
  | .disconnected, _, _ => .ok .disconnected
  | .fake d, n, p => .ok (.fake { d with oauthStates := setAssoc d.oauthStates n p })
  | .live d, n, p => .ok (.live { d with oauthStates := setAssoc d.oauthStates n p })
  | .liveFailing, _, _ => .error .connectionError

def redisDeleteState : RedisBackend → String → Except Exc RedisBackend
  | .disconnected, _ => .ok .disconnected
  | .fake d, n => .ok (.fake { d with oauthStates := delAssoc d.oauthStates n })
  | .live d, n => .ok (.live { d with oauthStates := delAssoc d.oauthStates n })
  | .liveFailing, _ => .error .connectionError

def redisGetSession (b : RedisBackend) (sid : Nat) :
    Except Exc (Option (RedisReply CacheEntry)) :=
  match b with
  | .disconnected => .ok none
  | .fake d => .ok ((getAssoc d.sessions sid).map .bytes)
  | .live d => .ok ((getAssoc d.sessions sid).map .str)
  | .liveFailing => .error .connectionError

def redisSetSession : RedisBackend → Nat → CacheEntry → Except Exc RedisBackend
  | .disconnected, _, _ => .ok .disconnected
  | .fake d, sid, e => .ok (.fake { d with sessions := setAssoc d.sessions sid e })
  | .live d, sid, e => .ok (.live { d with sessions := setAssoc d.sessions sid e })
  | .liveFailing, _, _ => .error .connectionError

def redisDeleteSession : RedisBackend → Nat → Except Exc RedisBackend
  | .disconnected, _ => .ok .disconnected
  | .fake d, sid => .ok (.fake { d with sessions := delAssoc d.sessions sid })
  | .live d, sid => .ok (.live { d with sessions := delAssoc d.sessions sid })
  | .liveFailing, _ => .error .connectionError

/-- Full request-handling state: durable store, cache, current time (s). -/
structure World where
  db : DB
  cache : RedisBackend
  now : Nat
  deriving Repr, DecidableEq

/-! ### `app/services/database_service.py` -/

def findUserById (db : DB) (i : Nat) : Option UserRec :=
  db.users.find? (fun u => u.id == i)

def findOAuthAccount (db : DB) (p pid : String) : Option OAuthAccountRec :=
  db.oauthAccounts.find? (fun a => a.provider == p && a.providerId == pid)

/-- `get_user_by_email`: `find_unique(where={"email": email})`; any database
exception is caught and turned into `None`. -/
def get_user_by_email (db : DB) (email : String) : Option User :=
  if db.up then (db.users.find? (fun u => u.email == some email)).map toUser
  else none

/-- `get_user_by_oauth_provider`: unique lookup on (provider, providerId)
with the linked user included; `None` unless both the account and its user
exist; any database exception is caught and turned into `None`. -/
def get_user_by_oauth_provider (db : DB) (p pid : String) : Option User :=
  if db.up then
    match findOAuthAccount db p pid with
    | some a => (findUserById db a.userId).map toUser
    | none => none
  else none

/-- Python `email.split("@")[0]` for the default username. -/
def emailLocalPart (email : String) : String :=
  email.takeWhile (fun c => c != '@')

/-- `create_user_with_oauth`: one nested create of the user together with its
`OAuthAccount` (atomic: both rows or neither); re-raises on failure. -/
def create_user_with_oauth (db : DB) (ou : OAuthUser) :
    Except Exc (User × DB) :=
  if db.up then
    let uname := ou.username.getD (emailLocalPart ou.email)
    let u : UserRec := { id := db.nextUserId, username := uname,
                         email := some ou.email, isActive := true }
    let acc : OAuthAccountRec := { provider := ou.provider,
                                   providerId := ou.provider_id,
                                   email := ou.email, userId := db.nextUserId }
    .ok (toUser u,
         { db with users := db.users ++ [u],
                   oauthAccounts := db.oauthAccounts ++ [acc],
                   nextUserId := db.nextUserId + 1 })
  else .error .dbError

/-- `link_oauth_account`: creates the `OAuthAccount` row; returns `False`
(without raising) if the create fails. -/
def link_oauth_account (db : DB) (uid : Nat) (ou : OAuthUser) : Bool × DB :=
  if db.up then
    (true,
     { db with oauthAccounts := db.oauthAccounts ++
         [{ provider := ou.provider, providerId := ou.provider_id,
            email := ou.email, userId := uid }] })
  else (false, db)

/-- `create_session(user_id)` with the default expiry
`utcnow() + timedelta(minutes=ACCESS_TOKEN_EXPIRE_MINUTES)`; re-raises on a
durable-store failure. -/
def create_session (db : DB) (now uid : Nat) : Except Exc (Nat × DB) :=
  if db.up then
    .ok (db.nextSessionId,
         { db with
             sessions := db.sessions ++
               [{ id := db.nextSessionId, userId := uid,
                  expiresAt := now + ACCESS_TOKEN_EXPIRE_MINUTES * 60 }],
             nextSessionId := db.nextSessionId + 1 })
  else .error .dbError

/-- The dict returned by `get_session`. -/
structure SessionData where
  user_id : Nat
  username : String
  email : Option String
  expires_at : Nat
  deriving Repr, DecidableEq

/-- `get_session`: unique lookup with the user included; returns the snapshot
only when the record exists and `expiresAt > utcnow()`; any exception
(including the store being down, or a dangling user reference) yields `None`. -/
def get_session (db : DB) (now sid : Nat) : Option SessionData :=
  if db.up then
    match db.sessions.find? (fun s => s.id == sid) with
    | some s =>
        if now < s.expiresAt then
          match findUserById db s.userId with
          | some u => some { user_id := u.id, username := u.username,
                             email := u.email, expires_at := s.expiresAt }
          | none => none
        else none
    | none => none
  else none

/-- `delete_session`: returns `False` instead of raising when the delete
fails (e.g. store down). -/
def delete_session (db : DB) (sid : Nat) : Bool × DB :=
  if db.up then
    (true, { db with sessions := db.sessions.filter (fun s => !(s.id == sid)) })
  else (false, db)

/-! ### `app/security.py` -/

/-- `create_access_token`: embeds the claims plus
`exp = utcnow() + timedelta(minutes=ACCESS_TOKEN_EXPIRE_MINUTES)` and signs
with the server secret (so the signature verifies: `sigOk = true`). -/
def create_access_token (data : Payload) (now : Nat) : Jwt :=
  { payload := data, exp := now + ACCESS_TOKEN_EXPIRE_MINUTES * 60, sigOk := true }

/-- `decode_access_token`: delegates to the JWT library and re-raises each
library exception with the same class (`ExpiredSignatureError`, `DecodeError`,
`InvalidTokenError` — all PyJWT classes). -/
def decode_access_token (t : Jwt) (now : Nat) : Except Exc Payload :=
  if !t.sigOk then .error (.pyjwt .decodeError)
  else if t.exp ≤ now then .error (.pyjwt .expiredSignature)
  else .ok t.payload

/-- Python `str.lower()` restricted to the ASCII scheme names compared
here (spelled over the character list so that it evaluates). -/
def lowerAscii (s : String) : String := String.mk (s.data.map Char.toLower)

/-- Python `int()` on the canonical decimal strings this code feeds it
(`str(user.id)`): all-digit, non-empty; anything else raises `ValueError`. -/
def parseNat (s : String) : Option Nat :=
  if s.data ≠ [] ∧ s.data.all (fun c => c.isDigit) then
    some (s.data.foldl (fun acc c => acc * 10 + (c.toNat - 48)) 0)
  else none

/-! ### `app/dependencies.py` -/

/-- `get_current_user_from_token`: decodes the bearer credential inside a
`try` whose only handler is `except JWTError` (the jose class).  The PyJWT
exceptions actually raised by `decode_access_token` do not match it and
propagate.  A payload whose `sub` is absent or falsy yields the 401
"Invalid token: missing user ID"; `int(user_id)` on a non-numeric subject
raises `ValueError`, also uncaught. -/
def get_current_user_from_token (t : Jwt) (now : Nat) : Except Exc User :=
  match decode_access_token t now with
  | .error e =>
      if isJoseJWTError e then
        .error (.httpExc 401 .invalidToken (some "Bearer"))
      else .error e
  | .ok p =>
      match p.sub with
      | none => .error (.httpExc 401 .invalidTokenMissingUserId (some "Bearer"))
      | some s =>
          if s = "" then
            .error (.httpExc 401 .invalidTokenMissingUserId (some "Bearer"))
          else
            match parseNat s with
            | none => .error .valueError
            | some n =>
                .ok { id := n, username := p.username, email := p.email,
                      is_active := true }

/-- `get_current_user_from_session`: cookie → durable store → cache shadow.
Returns `None` when the cookie is absent, both lookups miss, or the cached
bytes fail `json.loads` / key access (`except (JSONDecodeError, KeyError)`).
But the redis `get` itself can raise (failing live client), and a healthy
live client returns a `str` whose `.decode()` raises `AttributeError`;
neither is caught by that `except`, so both propagate to the caller. -/
def get_current_user_from_session (cookie : Option Nat) (w : World) :
    Except Exc (Option User) :=
  match cookie with
  | none => .ok none
  | some sid =>
      match get_session w.db w.now sid with
      | some sd => .ok (some { id := sd.user_id, username := some sd.username,
                               email := sd.email, is_active := true })
      | none =>
          match redisGetSession w.cache sid with
          | .error e => .error e
          | .ok none => .ok none
          | .ok (some reply) =>
              match decodeReply reply with
              | .error e => .error e
              | .ok (.snap s) =>
                  .ok (some { id := s.user_id, username := s.username,
                              email := s.email, is_active := true })
              | .ok .malformed => .ok none

/-- `get_current_user`: the layered resolver.  A present credential is
verified first and any exception it raises propagates (no session fallback
on a failed token); only when no credential was passed does the session path
run; with neither, 401 "Not authenticated". -/
def get_current_user (credentials : Option Jwt) (cookie : Option Nat)
    (w : World) : Except Exc User :=
  match credentials with
  | some c => get_current_user_from_token c w.now
  | none =>
      match get_current_user_from_session cookie w with
      | .error e => .error e
      | .ok (some u) => .ok u
      | .ok none => .error (.httpExc 401 .notAuthenticated (some "Bearer"))

/-- The `security = HTTPBearer()` dependency with its default
`auto_error=True`: a missing or non-Bearer `Authorization` header raises
`HTTPException(403)` before the route body runs, so the route never sees
`credentials = None`. -/
def httpBearerDep (auth : Option (String × Jwt)) : Except Exc Jwt :=
  match auth with
  | none => .error (.httpExc 403 .notAuthenticated none)
  | some (scheme, tok) =>
      if lowerAscii scheme = "bearer" then .ok tok
      else .error (.httpExc 403 .invalidAuthCredentials none)

/-- An incoming HTTP request to a protected endpoint: the `Authorization`
header (scheme and token) and the `session_id` cookie. -/
structure Request where
  authorization : Option (String × Jwt)
  sessionCookie : Option Nat
  deriving Repr, DecidableEq

/-- `GET /auth/me` as dispatched by the framework: resolve the
`HTTPBearer` dependency, then `get_current_user`, rendering
`HTTPException`s as their status and anything else as a 500 crash. -/
def authMe (req : Request) (w : World) : Resp User :=
  match httpBearerDep req.authorization with
  | .error e => respOfExc e
  | .ok tok =>
      match get_current_user (some tok) req.sessionCookie w with
      | .ok u => .ok u
      | .error e => respOfExc e

/-! ### `app/api/v1/auth_routes.py` -/

/-- `get_or_create_user`: lookup by (provider, provider_id); else lookup by
email and link the new `OAuthAccount` to the found user (result of
`link_oauth_account` ignored, as in the source); else create user and
account together.  Only the create path can raise. -/
def get_or_create_user (ou : OAuthUser) (db : DB) : Except Exc (User × DB) :=
  match get_user_by_oauth_provider db ou.provider ou.provider_id with
  | some u => .ok (u, db)
  | none =>
      match get_user_by_email db ou.email with
      | some u => .ok (u, (link_oauth_account db u.id ou).2)
      | none => create_user_with_oauth db ou

/-- Outcome of `oauth2_service.exchange_*_code` for one (provider, code):
a normalized identity, an `OAuthError` (any network / non-2xx / malformed
user-info failure, re-raised with a message), or the `ValueError` raised
when the provider client is not configured. -/
inductive ExchangeOutcome where
  | ok (u : OAuthUser)
  | oauthError (msg : String)
  | notConfigured
  deriving Repr, DecidableEq

/-- The provider endpoints as an oracle: what exchanging `code` at
`provider` returns on this request. -/
def ExchangeOracle : Type := String → String → ExchangeOutcome

/-- The `try`-block dispatch of the callback: branch on the provider string,
with a trailing `HTTPException(400, "Unsupported OAuth provider")` raise.
The enclosing `except OAuthError` catches only `OAuthError` and re-raises it
as `HTTPException(400, "OAuth authentication failed: ...")`; the
`HTTPException` and `ValueError` pass through it. -/
def dispatchExchange (provider code : String) (ex : ExchangeOracle) :
    Except Exc OAuthUser :=
  let outcome :=
    if provider = "google" then some (ex "google" code)
    else if provider = "github" then some (ex "github" code)
    else none
  match outcome with
  | none => .error (.httpExc 400 .unsupportedProvider none)
  | some (.ok u) => .ok u
  | some (.oauthError m) => .error (.httpExc 400 (.oauthAuthFailed m) none)
  | some .notConfigured => .error .valueError

/-- Lines 80–92 of the callback: create the durable session, then mirror the
snapshot to the cache.  The first component is the segment's outcome (the id
and both stores on success, the escaping exception otherwise); the second is
the durable store as left behind — an exception raised by the cache write
(disconnected backend is a silent no-op, but a failing live client raises
and nothing catches it here) does not undo the already committed durable
session row. -/
def create_session_with_cache (user : User) (now : Nat) (db : DB)
    (b : RedisBackend) : Except Exc (Nat × DB × RedisBackend) × DB :=
  match create_session db now user.id with
  | .error e => (.error e, db)
  | .ok (sid, db1) =>
      match redisSetSession b sid
          (.snap { user_id := user.id, username := user.username,
                   email := user.email }) with
      | .error e => (.error e, db1)
      | .ok b1 => (.ok (sid, db1, b1), db1)

/-- The successful callback response: the redirect carries the token in the
query and the `session_id` cookie. -/
structure CallbackOk where
  access_token : Jwt
  session_id : Nat
  deriving Repr, DecidableEq

/-- The part of `oauth_callback` after the state check and delete:
exchange, identity resolution, token issue, session creation, cache mirror.
Uncaught exceptions leave the world mutations already performed in place. -/
def afterConsume (provider code : String) (ex : ExchangeOracle)
    (w1 : World) : Resp CallbackOk × World :=
  match dispatchExchange provider code ex with
  | .error e => (respOfExc e, w1)
  | .ok ou =>
      match get_or_create_user ou w1.db with
      | .error e => (respOfExc e, w1)
      | .ok (user, db1) =>
          let tok := create_access_token
            { sub := some (toString user.id), username := user.username,
              email := user.email } w1.now
          match create_session_with_cache user w1.now db1 w1.cache with
          | (.error e, db2) => (respOfExc e, { w1 with db := db2 })
          | (.ok (sid, db2, c2), _) =>
              (.ok { access_token := tok, session_id := sid },
               { w1 with db := db2, cache := c2 })

/-- `GET /auth/{provider}/callback?code&state&error`: reject on the `error`
query parameter; look up the stored state.  The guard is
`if not stored_provider or stored_provider.decode() != provider`: an absent
value is 400 "Invalid state parameter" without a decode, but a present value
is first `.decode()`d — on a live client the reply is a `str` and this
raises `AttributeError`, uncaught, before the comparison and the delete.  On
a matching (bytes) value the state entry is deleted, then exchange and
session establishment run. -/
def oauth_callback (provider code state : String) (error : Option String)
    (ex : ExchangeOracle) (w : World) : Resp CallbackOk × World :=
  match error with
  | some e => (.err 400 (.oauthErrorParam e) none, w)
  | none =>
      match redisGetState w.cache state with
      | .error e => (respOfExc e, w)
      | .ok none => (.err 400 .invalidState none, w)
      | .ok (some reply) =>
          match decodeReply reply with
          | .error e => (respOfExc e, w)
          | .ok stored =>
              if stored = provider then
                match redisDeleteState w.cache state with
                | .error e => (respOfExc e, w)
                | .ok c1 => afterConsume provider code ex { w with cache := c1 }
              else (.err 400 .invalidState none, w)

/-- Provider client configuration (client id and secret present). -/
structure OAuthCfg where
  google : Bool
  github : Bool
  deriving Repr, DecidableEq

/-- `GET /auth/{provider}/login`: 400 for an unknown provider; otherwise
store `oauth_state:{state} ↦ provider` with a 300s TTL (this write happens
before the `try`), then build the authorization URL — a `ValueError` from an
unconfigured client becomes the 500.  `nonce` stands for the value of
`oauth2_service.generate_state()` on this request, and `authUrl` for the
provider's (possibly discovery-based) authorization URL construction. -/
def oauth_login (provider nonce : String) (cfg : OAuthCfg)
    (authUrl : String → String → String) (w : World) :
    Resp String × World :=
  if provider = "google" ∨ provider = "github" then
    match redisSetState w.cache nonce provider with
    | .error e => (respOfExc e, w)
    | .ok c1 =>
        if (provider = "google" && cfg.google) || (provider = "github" && cfg.github) then
          (.ok (authUrl provider nonce), { w with cache := c1 })
        else (.err 500 (.oauthProviderNotConfigured provider) none,
              { w with cache := c1 })
  else (.err 400 .unsupportedProvider none, w)

/-- Abbreviation for the durable store after `create_session` appends the
new row (the update performed in the success branch of `create_session`). -/
def sessionAdded (db : DB) (uid now : Nat) : DB :=
  { db with
      sessions := db.sessions ++
        [{ id := db.nextSessionId, userId := uid,
           expiresAt := now + ACCESS_TOKEN_EXPIRE_MINUTES * 60 }],
      nextSessionId := db.nextSessionId + 1 }

/-- Abbreviation for the snapshot the callback mirrors to the cache. -/
def sessionShadow (user : User) : CacheEntry :=
  .snap { user_id := user.id, username := user.username, email := user.email }

/-! ### Store invariants -/

/-- Well-formedness of the durable store as enforced by its schema: ids are
below the generator counter, user ids are unique (primary key), and every
`OAuthAccount.userId` references an existing user (foreign key). -/
def DBWF (db : DB) : Prop :=
  (∀ u ∈ db.users, u.id < db.nextUserId) ∧
  (db.users.map (fun u => u.id)).Nodup ∧
  (∀ a ∈ db.oauthAccounts, ∃ u ∈ db.users, u.id = a.userId)

/-- The values ever written under `oauth_state:` keys: `oauth_login` is the
only writer and stores exactly the provider path parameter, after rejecting
everything outside {"google", "github"}. -/
def StateInv (b : RedisBackend) : Prop :=
  ∀ kv ∈ oauthStatesOf b, kv.2 = "google" ∨ kv.2 = "github"

/-! ### Concrete fixtures used by witnesses and counterexamples -/

/-- A store with one user (id 7) holding one linked google identity and one
live session (id 1, expiring at t=1000). -/
def dbFix : DB :=
  { up := true,
    users := [{ id := 7, username := "bob", email := some "b@x.com", isActive := true }],
    oauthAccounts := [{ provider := "google", providerId := "g7",
                        email := "b@x.com", userId := 7 }],
    sessions := [{ id := 1, userId := 7, expiresAt := 1000 }],
    nextUserId := 8, nextSessionId := 2 }

def dbDown : DB := { dbFix with up := false }

def db0 : DB :=
  { up := true, users := [], oauthAccounts := [], sessions := [],
    nextUserId := 1, nextSessionId := 1 }

def wFix : World := { db := dbFix, cache := .fake ⟨[], []⟩, now := 0 }

def wLate : World := { wFix with now := 50 }

/-- Durable store holds an explicitly expired record for session 1
(`expiresAt = 100 < now = 200`) while the fake cache still shadows it. -/
def wC5 : World :=
  { db := { dbFix with sessions := [{ id := 1, userId := 7, expiresAt := 100 }] },
    cache := .fake ⟨[], [(1, .snap { user_id := 7, username := some "bob",
                                     email := some "b@x.com" })]⟩,
    now := 200 }

/-- Same state as `wC5` but the shadow sits in a healthy live client, whose
get returns a `str`. -/
def wC5live : World :=
  { db := { dbFix with sessions := [{ id := 1, userId := 7, expiresAt := 100 }] },
    cache := .live ⟨[], [(1, .snap { user_id := 7, username := some "bob",
                                     email := some "b@x.com" })]⟩,
    now := 200 }

/-- One pending state nonce `n1` issued for provider `google`, in the
`FakeRedisClient` regime (the one the repository's tests run in). -/
def wC9 : World :=
  { db := dbFix, cache := .fake ⟨[("n1", "google")], []⟩, now := 0 }

/-- The same pending nonce held by a healthy live client
(`decode_responses=True`: get returns `str`). -/
def wLive : World :=
  { db := dbFix, cache := .live ⟨[("n1", "google")], []⟩, now := 0 }

/-- A provider oracle whose exchange always succeeds with a fresh identity. -/
def exOKW : ExchangeOracle :=
  fun p _ => .ok { provider := p, provider_id := "g9", email := "c@x.com",
                   username := some "carol" }

/-- A provider oracle that is never reached in the scenarios using it. -/
def exStub : ExchangeOracle := fun _ _ => .notConfigured

def ouW : OAuthUser :=
  { provider := "google", provider_id := "g9", email := "c@x.com",
    username := some "carol" }

def uW : User :=
  { id := 1, username := some "carol", email := some "c@x.com", is_active := true }

/-- The store after `get_or_create_user ouW db0` creates user 1. -/
def db1W : DB :=
  { up := true,
    users := [{ id := 1, username := "carol", email := some "c@x.com", isActive := true }],
    oauthAccounts := [{ provider := "google", providerId := "g9",
                        email := "c@x.com", userId := 1 }],
    sessions := [], nextUserId := 2, nextSessionId := 1 }

/-- A github identity sharing user 7's email but unknown by (provider, id). -/
def ouGit : OAuthUser :=
  { provider := "github", provider_id := "h7", email := "b@x.com",
    username := none }

def uBob : User :=
  { id := 7, username := some "bob", email := some "b@x.com", is_active := true }

/-! ### Helper lemmas -/

theorem find?_append_of_none {α : Type} (p : α → Bool) (xs ys : List α)
    (h : xs.find? p = none) : (xs ++ ys).find? p = ys.find? p := by
  induction xs with
  | nil => rfl
  | cons x xs ih =>
      by_cases hpx : p x = true
      · rw [List.find?_cons_of_pos _ hpx] at h; exact absurd h (by simp)
      · rw [List.find?_cons_of_neg _ hpx] at h
        rw [List.cons_append, List.find?_cons_of_neg _ hpx]
        exact ih h

theorem find?_id_of_mem_nodup {l : List UserRec} {u : UserRec}
    (hm : u ∈ l) (hnd : (l.map (fun v => v.id)).Nodup) :
    l.find? (fun v => v.id == u.id) = some u := by
  induction l with
  | nil => cases hm
  | cons x xs ih =>
      simp only [List.map_cons, List.nodup_cons] at hnd
      rcases List.mem_cons.mp hm with h | h
      · subst h
        exact List.find?_cons_of_pos _ (by simp)
      · have hne : ¬((fun v => v.id == u.id) x = true) := by
          simp only [beq_iff_eq]
          intro he
          have hmem : u.id ∈ xs.map (fun v => v.id) := List.mem_map.mpr ⟨u, h, rfl⟩
          rw [← he] at hmem
          exact hnd.1 hmem
        rw [show List.find? (fun v => v.id == u.id) (x :: xs) =
              List.find? (fun v => v.id == u.id) xs from
            List.find?_cons_of_neg _ hne]
        exact ih h hnd.2

theorem getAssoc_delAssoc {κ ν : Type} [BEq κ] (l : List (κ × ν)) (k : κ) :
    getAssoc (delAssoc l k) k = none := by
  have hf : (delAssoc l k).find? (fun kv => kv.1 == k) = none := by
    rw [List.find?_eq_none]
    intro kv hkv
    have h2 := (List.mem_filter.mp hkv).2
    simp only [Bool.not_eq_true'] at h2
    simp [h2]
  simp [getAssoc, hf]

theorem oauthStatesOf_setSession {b b1 : RedisBackend} {sid : Nat}
    {e : CacheEntry} (h : redisSetSession b sid e = .ok b1) :
    oauthStatesOf b1 = oauthStatesOf b := by
  cases b with
  | disconnected =>
      simp only [redisSetSession, Except.ok.injEq] at h
      rw [← h]
  | fake d =>
      simp only [redisSetSession, Except.ok.injEq] at h
      rw [← h]
      rfl
  | live d =>
      simp only [redisSetSession, Except.ok.injEq] at h
      rw [← h]
      rfl
  | liveFailing => exact absurd h (by simp [redisSetSession])

theorem mem_oauthStates_setState {b b1 : RedisBackend} {n p : String}
    {kv : String × String} (hs : redisSetState b n p = .ok b1)
    (h : kv ∈ oauthStatesOf b1) : kv = (n, p) ∨ kv ∈ oauthStatesOf b := by
  cases b with
  | disconnected =>
      simp only [redisSetState, Except.ok.injEq] at hs
      rw [← hs] at h
      cases h
  | fake d =>
      simp only [redisSetState, Except.ok.injEq] at hs
      rw [← hs] at h
      simp only [oauthStatesOf, setAssoc] at h
      rcases List.mem_cons.mp h with h1 | h1
      · exact Or.inl h1
      · exact Or.inr (List.mem_filter.mp h1).1
  | live d =>
      simp only [redisSetState, Except.ok.injEq] at hs
      rw [← hs] at h
      simp only [oauthStatesOf, setAssoc] at h
      rcases List.mem_cons.mp h with h1 | h1
      · exact Or.inl h1
      · exact Or.inr (List.mem_filter.mp h1).1
  | liveFailing => exact absurd hs (by simp [redisSetState])

theorem mem_oauthStates_deleteState {b b1 : RedisBackend} {n : String}
    {kv : String × String} (hd : redisDeleteState b n = .ok b1)
    (h : kv ∈ oauthStatesOf b1) : kv ∈ oauthStatesOf b := by
  cases b with
  | disconnected =>
      simp only [redisDeleteState, Except.ok.injEq] at hd
      rw [← hd] at h
      cases h
  | fake d =>
      simp only [redisDeleteState, Except.ok.injEq] at hd
      rw [← hd] at h
      simp only [oauthStatesOf, delAssoc] at h
      exact (List.mem_filter.mp h).1
  | live d =>
      simp only [redisDeleteState, Except.ok.injEq] at hd
      rw [← hd] at h
      simp only [oauthStatesOf, delAssoc] at h
      exact (List.mem_filter.mp h).1
  | liveFailing => exact absurd hd (by simp [redisDeleteState])

theorem redisGetState_bytes {b : RedisBackend} {n v : String}
    (h : redisGetState b n = .ok (some (.bytes v))) :
    ∃ d, b = .fake d ∧ getAssoc d.oauthStates n = some v := by
  cases b with
  | disconnected => simp [redisGetState] at h
  | fake d =>
      refine ⟨d, rfl, ?_⟩
      simp only [redisGetState] at h
      cases hg : getAssoc d.oauthStates n with
      | none => rw [hg] at h; simp at h
      | some x =>
          rw [hg] at h
          simp at h
          exact congrArg some h
  | live d =>
      simp only [redisGetState] at h
      cases hg : getAssoc d.oauthStates n with
      | none => rw [hg] at h; simp at h
      | some x => rw [hg] at h; simp at h
  | liveFailing => simp [redisGetState] at h

theorem afterConsume_preserves_states (provider code : String)
    (ex : ExchangeOracle) (w1 : World) :
    oauthStatesOf ((afterConsume provider code ex w1).2.cache) =
      oauthStatesOf w1.cache := by
  unfold afterConsume
  cases hd : dispatchExchange provider code ex with
  | error e => simp [hd]
  | ok ou =>
      simp only [hd]
      cases hg : get_or_create_user ou w1.db with
      | error e => simp [hg]
      | ok ud =>
          obtain ⟨user, db1⟩ := ud
          simp only [hg]
          unfold create_session_with_cache
          cases hs : create_session db1 w1.now user.id with
          | error e => simp [hs]
          | ok sd =>
              obtain ⟨sid, db2⟩ := sd
              simp only [hs]
              cases hset : redisSetSession w1.cache sid
                  (.snap { user_id := user.id, username := user.username,
                           email := user.email }) with
              | error e => simp [hset]
              | ok b1 =>
                  simp only [hset]
                  exact oauthStatesOf_setSession hset

theorem afterConsume_fake (provider code : String) (ex : ExchangeOracle)
    (w1 : World) (d : CacheData) (hc : w1.cache = .fake d) :
    ∃ d2, (afterConsume provider code ex w1).2.cache = .fake d2 ∧
      d2.oauthStates = d.oauthStates := by
  unfold afterConsume
  cases hd : dispatchExchange provider code ex with
  | error e =>
      refine ⟨d, ?_, rfl⟩
      try simp only [hd]
      exact hc
  | ok ou =>
      simp only [hd]
      cases hg : get_or_create_user ou w1.db with
      | error e =>
          refine ⟨d, ?_, rfl⟩
          try simp only [hg]
          exact hc
      | ok ud =>
          obtain ⟨user, db1⟩ := ud
          simp only [hg]
          unfold create_session_with_cache
          cases hs : create_session db1 w1.now user.id with
          | error e =>
              refine ⟨d, ?_, rfl⟩
              try simp only [hs]
              exact hc
          | ok sd =>
              obtain ⟨sid, db2⟩ := sd
              simp only [hs]
              rw [hc]
              refine ⟨{ d with
                  sessions := setAssoc d.sessions sid
                    (.snap { user_id := user.id, username := user.username,
                             email := user.email }) }, rfl, rfl⟩

theorem get_or_create_user_error_dbError (ou : OAuthUser) (db : DB) (e : Exc)
    (h : get_or_create_user ou db = .error e) : e = .dbError := by
  unfold get_or_create_user at h
  cases hg : get_user_by_oauth_provider db ou.provider ou.provider_id with
  | some u => rw [hg] at h; exact absurd h (by simp)
  | none =>
      rw [hg] at h
      cases he : get_user_by_email db ou.email with
      | some u => rw [he] at h; exact absurd h (by simp)
      | none =>
          rw [he] at h
          unfold create_user_with_oauth at h
          cases hup : db.up with
          | true => rw [hup] at h; exact absurd h (by simp)
          | false =>
              rw [hup] at h
              simp only [Bool.false_eq_true, if_false, Except.error.injEq] at h
              exact h.symm

theorem create_session_with_cache_error_shape (user : User) (now : Nat)
    (db : DB) (b : RedisBackend) (e : Exc)
    (h : (create_session_with_cache user now db b).1 = .error e) :
    e = .dbError ∨ e = .connectionError := by
  unfold create_session_with_cache create_session at h
  cases hup : db.up with
  | false =>
      rw [hup] at h
      simp at h
      exact Or.inl h.symm
  | true =>
      rw [hup] at h
      cases b with
      | disconnected => simp [redisSetSession] at h
      | fake d => simp [redisSetSession] at h
      | live d => simp [redisSetSession] at h
      | liveFailing =>
          simp [redisSetSession] at h
          exact Or.inr h.symm

/-! ### Claim theorems -/

/-- Claim C1: for every request presenting a valid bearer token (valid
signature, unexpired, non-empty numeric subject), `get_current_user` returns
the principal constructed from the token's embedded claims, whatever the
session cookie and session stores contain (in particular a live session of a
different principal) — so no session lookup influences the result. -/
theorem get_current_user_token_wins (p : Payload) (texp : Nat)
    (cookie : Option Nat) (w : World) (s : String) (n : Nat)
    (hsub : p.sub = some s) (hne : s ≠ "") (hn : parseNat s = some n)
    (hfresh : w.now < texp) :
    get_current_user (some { payload := p, exp := texp, sigOk := true }) cookie w =
      .ok { id := n, username := p.username, email := p.email, is_active := true } := by
  have hle : ¬(texp ≤ w.now) := Nat.not_le.mpr hfresh
  simp [get_current_user, get_current_user_from_token, decode_access_token,
        hle, hsub, hne, hn]

theorem get_current_user_token_wins_witness :
    get_current_user
        (some { payload := { sub := some "9", username := some "alice",
                             email := some "a@x.com" },
                exp := 100, sigOk := true })
        (some 1) wFix =
      .ok { id := 9, username := some "alice", email := some "a@x.com",
            is_active := true } :=
  get_current_user_token_wins _ _ _ _ "9" 9 rfl (by decide) rfl (by decide)

/-- Claim C2 (code bug): a request presenting no bearer token but a session
cookie whose session is live in the durable store is rejected with HTTP 403
by the `HTTPBearer` dependency (`auto_error` defaults to true) before the
session path can run — even though `get_current_user` itself, if it were
reached with `credentials = None`, would return that session's principal. -/
theorem authMe_session_only_request_rejected :
    authMe { authorization := none, sessionCookie := some 1 } wFix =
      .err 403 .notAuthenticated none ∧
    get_current_user none (some 1) wFix =
      .ok { id := 7, username := some "bob", email := some "b@x.com",
            is_active := true } :=
  ⟨rfl, rfl⟩

/-- Claim C3 (code bug): on `GET /auth/me` with no valid session, a
malformed bearer token escapes as an uncaught PyJWT `DecodeError` (HTTP 500,
since `except JWTError` catches only the jose class), an expired one as an
uncaught `ExpiredSignatureError` (HTTP 500), and a missing credential is
rejected with 403 by `HTTPBearer` — none of these is the specified 401. -/
theorem authMe_invalid_credential_not_401 :
    authMe { authorization := some ("Bearer",
               { payload := { sub := none, username := none, email := none },
                 exp := 0, sigOk := false }),
             sessionCookie := none } wFix =
      .crash (.pyjwt .decodeError) ∧
    authMe { authorization := some ("Bearer",
               { payload := { sub := some "7", username := some "bob",
                              email := none },
                 exp := 10, sigOk := true }),
             sessionCookie := none } wLate =
      .crash (.pyjwt .expiredSignature) ∧
    authMe { authorization := none, sessionCookie := none } wFix =
      .err 403 .notAuthenticated none :=
  ⟨rfl, rfl, rfl⟩

/-- Claim C5 counterexample: the durable store holds an explicitly expired
record for session 1 (`expiresAt = 100`, now 200), yet the composite session
read does not give none: under the `FakeRedisClient` regime it returns the
cache shadow, and under a healthy live client it raises an uncaught
`AttributeError` at `redis_session.decode()` — in neither regime is the
specified none produced while the cache still holds the shadow. -/
theorem expired_durable_cache_shadow_returned :
    wC5.db.sessions.find? (fun s => s.id == 1) =
      some { id := 1, userId := 7, expiresAt := 100 } ∧
    wC5.now = 200 ∧
    get_session wC5.db wC5.now 1 = none ∧
    get_current_user_from_session (some 1) wC5 =
      .ok (some { id := 7, username := some "bob", email := some "b@x.com",
                  is_active := true }) ∧
    get_current_user_from_session (some 1) wC5live = .error .attributeError :=
  ⟨rfl, rfl, rfl, rfl, rfl⟩

/-- Claim C5 (amended): the session read consults the durable store first and
a live durable record wins regardless of the cache; when the durable store
holds an explicitly expired record the durable read returns none and the
lookup falls back to the cache shadow — under the `FakeRedisClient` regime a
cached snapshot is then returned, under a healthy live client the fallback
raises an uncaught `AttributeError` at `.decode()`, and the result is none
only when the cache has nothing for the id. -/
theorem session_get_durable_first_cache_fallback :
    (∀ (sid : Nat) (w : World) (sd : SessionData),
        get_session w.db w.now sid = some sd →
        get_current_user_from_session (some sid) w =
          .ok (some { id := sd.user_id, username := some sd.username,
                      email := sd.email, is_active := true })) ∧
    (∀ (sid : Nat) (w : World) (s : SessionRec) (c : SessionSnap),
        w.db.up = true →
        w.db.sessions.find? (fun r => r.id == sid) = some s →
        s.expiresAt ≤ w.now →
        redisGetSession w.cache sid = .ok (some (.bytes (.snap c))) →
        get_current_user_from_session (some sid) w =
          .ok (some { id := c.user_id, username := c.username,
                      email := c.email, is_active := true })) ∧
    (∀ (sid : Nat) (w : World) (s : SessionRec) (ce : CacheEntry),
        w.db.up = true →
        w.db.sessions.find? (fun r => r.id == sid) = some s →
        s.expiresAt ≤ w.now →
        redisGetSession w.cache sid = .ok (some (.str ce)) →
        get_current_user_from_session (some sid) w = .error .attributeError) ∧
    (∀ (sid : Nat) (w : World) (s : SessionRec),
        w.db.up = true →
        w.db.sessions.find? (fun r => r.id == sid) = some s →
        s.expiresAt ≤ w.now →
        redisGetSession w.cache sid = .ok none →
        get_current_user_from_session (some sid) w = .ok none) := by
  refine ⟨?_, ?_, ?_, ?_⟩
  · intro sid w sd h
    simp [get_current_user_from_session, h]
  · intro sid w s c hup hfind hexp hcache
    have hns : get_session w.db w.now sid = none := by
      simp [get_session, hup, hfind, Nat.not_lt.mpr hexp]
    simp [get_current_user_from_session, hns, hcache, decodeReply]
  · intro sid w s ce hup hfind hexp hcache
    have hns : get_session w.db w.now sid = none := by
      simp [get_session, hup, hfind, Nat.not_lt.mpr hexp]
    simp [get_current_user_from_session, hns, hcache, decodeReply]
  · intro sid w s hup hfind hexp hcache
    have hns : get_session w.db w.now sid = none := by
      simp [get_session, hup, hfind, Nat.not_lt.mpr hexp]
    simp [get_current_user_from_session, hns, hcache]

theorem session_get_durable_first_cache_fallback_witness :
    get_current_user_from_session (some 1) wC5 =
      .ok (some { id := 7, username := some "bob", email := some "b@x.com",
                  is_active := true }) :=
  session_get_durable_first_cache_fallback.2.1 1 wC5
    { id := 1, userId := 7, expiresAt := 100 }
    { user_id := 7, username := some "bob", email := some "b@x.com" }
    rfl rfl (by decide) rfl

/-- Claim C8 counterexample: the durable store is up and `create_session`
commits the new session row (visible in the returned store), yet the
enclosing segment fails: the mirror write on a failing live cache client
raises, `RedisClient.set` does not catch it, and `oauth_callback`'s only
handler is `except OAuthError` — so a cache write failure IS fatal to the
request even though the durable write succeeded. -/
theorem cache_write_failure_fails_request :
    dbFix.up = true ∧
    create_session_with_cache uW 0 dbFix .liveFailing =
      (.error .connectionError, sessionAdded dbFix uW.id 0) ∧
    sessionAdded dbFix uW.id 0 =
      { dbFix with
          sessions := dbFix.sessions ++
            [{ id := 2, userId := 1, expiresAt := 1800 }],
          nextSessionId := 3 } :=
  ⟨rfl, rfl, rfl⟩

/-- Claim C8 (amended): whenever the durable write succeeds, the session
creation segment returns the durable-store-generated id, with the id and
durable store identical across all non-raising cache backends — an absent
client (no-op) and the `FakeRedisClient` or a healthy live client
(mirrored write) never fail it; but a live cache client whose `set` raises
propagates the exception uncaught, failing the enclosing request after the
durable session row was already committed; durable-store failure is likewise
fatal. -/
theorem create_session_cache_mirror_behaviour (user : User) (now : Nat)
    (db : DB) :
    (db.up = true →
        create_session_with_cache user now db .disconnected =
          (.ok (db.nextSessionId, sessionAdded db user.id now, .disconnected),
           sessionAdded db user.id now) ∧
        (∀ d, create_session_with_cache user now db (.fake d) =
          (.ok (db.nextSessionId, sessionAdded db user.id now,
                .fake { d with
                    sessions := setAssoc d.sessions db.nextSessionId
                      (sessionShadow user) }),
           sessionAdded db user.id now)) ∧
        (∀ d, create_session_with_cache user now db (.live d) =
          (.ok (db.nextSessionId, sessionAdded db user.id now,
                .live { d with
                    sessions := setAssoc d.sessions db.nextSessionId
                      (sessionShadow user) }),
           sessionAdded db user.id now)) ∧
        create_session_with_cache user now db .liveFailing =
          (.error .connectionError, sessionAdded db user.id now)) ∧
    (db.up = false → ∀ b, create_session_with_cache user now db b =
        (.error .dbError, db)) := by
  constructor
  · intro h
    refine ⟨?_, ?_, ?_, ?_⟩
    · simp [create_session_with_cache, create_session, redisSetSession,
            sessionAdded, h]
    · intro d
      simp [create_session_with_cache, create_session, redisSetSession,
            sessionAdded, sessionShadow, h]
    · intro d
      simp [create_session_with_cache, create_session, redisSetSession,
            sessionAdded, sessionShadow, h]
    · simp [create_session_with_cache, create_session, redisSetSession,
            sessionAdded, h]
  · intro h b
    simp [create_session_with_cache, create_session, h]

theorem create_session_cache_mirror_behaviour_witness :
    create_session_with_cache uW 0 dbFix .disconnected =
      (.ok (dbFix.nextSessionId, sessionAdded dbFix uW.id 0, .disconnected),
       sessionAdded dbFix uW.id 0) ∧
    create_session_with_cache uW 0 dbDown .disconnected =
      (.error .dbError, dbDown) :=
  ⟨((create_session_cache_mirror_behaviour uW 0 dbFix).1 rfl).1,
   (create_session_cache_mirror_behaviour uW 0 dbDown).2 rfl .disconnected⟩

/-- Claim C9 counterexample: a consumption attempt that finds nonce `n1`
present but rejects it does not destroy the stored record.  In the
`FakeRedisClient` regime a provider mismatch (`github` vs stored `google`)
is rejected 400 with the world unchanged, the nonce still stored; with a
healthy live client the attempt crashes at `stored_provider.decode()`
(uncaught `AttributeError`), again leaving the nonce in place. -/
theorem mismatched_state_record_survives :
    redisGetState wC9.cache "n1" = .ok (some (.bytes "google")) ∧
    (oauth_callback "github" "c" "n1" none exStub wC9).1 =
      .err 400 .invalidState none ∧
    (oauth_callback "github" "c" "n1" none exStub wC9).2 = wC9 ∧
    redisGetState (oauth_callback "github" "c" "n1" none exStub wC9).2.cache
      "n1" = .ok (some (.bytes "google")) ∧
    oauth_callback "github" "c" "n1" none exStub wLive =
      (.crash .attributeError, wLive) :=
  ⟨rfl, rfl, rfl, rfl, rfl⟩

/-- Claim C9 (amended): a consumption attempt that finds the nonce present
never destroys the record unless the provider check passes: in the
`FakeRedisClient` regime a provider mismatch is rejected 400 "Invalid state
parameter" with the record left in place (it survives until TTL expiry);
with a healthy live client the attempt crashes at `.decode()` before the
comparison, likewise leaving the record; only a bytes-regime consumption
whose stored provider matches deletes it. -/
theorem consume_deletes_only_on_match (provider code state : String)
    (ex : ExchangeOracle) (w : World) :
    (∀ stored, redisGetState w.cache state = .ok (some (.bytes stored)) →
        stored ≠ provider →
        (oauth_callback provider code state none ex w).1 =
          .err 400 .invalidState none ∧
        (oauth_callback provider code state none ex w).2 = w) ∧
    (∀ s, redisGetState w.cache state = .ok (some (.str s)) →
        oauth_callback provider code state none ex w =
          (.crash .attributeError, w)) ∧
    (redisGetState w.cache state = .ok (some (.bytes provider)) →
        redisGetState (oauth_callback provider code state none ex w).2.cache
          state = .ok none) := by
  refine ⟨?_, ?_, ?_⟩
  · intro stored hget hne
    simp [oauth_callback, hget, decodeReply, hne]
  · intro s hget
    simp [oauth_callback, hget, decodeReply, respOfExc]
  · intro hget
    obtain ⟨d, hb, hga⟩ := redisGetState_bytes hget
    simp only [oauth_callback, hget, decodeReply]
    simp only [if_true]
    rw [hb]
    simp only [redisDeleteState]
    obtain ⟨d2, hcache, hstates⟩ := afterConsume_fake provider code ex
      { w with cache := .fake { d with oauthStates := delAssoc d.oauthStates state } }
      { d with oauthStates := delAssoc d.oauthStates state } rfl
    rw [hcache]
    simp [redisGetState, hstates, getAssoc_delAssoc]

theorem consume_deletes_only_on_match_witness :
    ((oauth_callback "github" "c" "n1" none exStub wC9).1 =
        .err 400 .invalidState none ∧
      (oauth_callback "github" "c" "n1" none exStub wC9).2 = wC9) ∧
    oauth_callback "github" "c" "n1" none exStub wLive =
      (.crash .attributeError, wLive) ∧
    redisGetState (oauth_callback "google" "c" "n1" none exOKW wC9).2.cache
      "n1" = .ok none :=
  ⟨(consume_deletes_only_on_match "github" "c" "n1" exStub wC9).1 "google"
      rfl (by decide),
   (consume_deletes_only_on_match "github" "c" "n1" exStub wLive).2.1 "google"
      rfl,
   (consume_deletes_only_on_match "google" "c" "n1" exOKW wC9).2.2 rfl⟩

/-- Claim C4 (code bug): with the live cache client the source actually
configures (`decode_responses=True`, get returns `str`), a callback
presenting the issued nonce and the matching provider crashes with an
uncaught `AttributeError` at `stored_provider.decode()` — before the delete
— so no consumption ever succeeds and the nonce survives.  Only in the
`FakeRedisClient` regime (bytes replies, the regime the repository's tests
stub) does the claimed behaviour hold: the first matching callback consumes
the nonce and the replayed callback is rejected 400 "Invalid state
parameter". -/
theorem oauth_callback_live_decode_crash :
    redisGetState wLive.cache "n1" = .ok (some (.str "google")) ∧
    oauth_callback "google" "c" "n1" none exOKW wLive =
      (.crash .attributeError, wLive) ∧
    redisGetState (oauth_callback "google" "c" "n1" none exOKW wC9).2.cache
      "n1" = .ok none ∧
    (oauth_callback "google" "c2" "n1" none exStub
        (oauth_callback "google" "c" "n1" none exOKW wC9).2).1 =
      .err 400 .invalidState none :=
  ⟨rfl, rfl, rfl, rfl⟩

/-- Claim C7: a new external identity unknown by (provider, provider-id)
whose email matches an existing principal is linked to that principal: the
same principal (same id) is returned, no principal is created, and the
principal's linked `OAuthAccount` count goes from one to two. -/
theorem get_or_create_user_links_by_email (ou : OAuthUser) (db : DB) (u : User)
    (hup : db.up = true)
    (hacc : findOAuthAccount db ou.provider ou.provider_id = none)
    (hemail : get_user_by_email db ou.email = some u)
    (hone : (db.oauthAccounts.filter (fun a => a.userId == u.id)).length = 1) :
    get_or_create_user ou db = .ok (u, (link_oauth_account db u.id ou).2) ∧
    (link_oauth_account db u.id ou).2.users = db.users ∧
    ((link_oauth_account db u.id ou).2.oauthAccounts.filter
        (fun a => a.userId == u.id)).length = 2 := by
  have hub : get_user_by_oauth_provider db ou.provider ou.provider_id = none := by
    simp [get_user_by_oauth_provider, hup, hacc]
  refine ⟨?_, ?_, ?_⟩
  · simp [get_or_create_user, hub, hemail]
  · simp [link_oauth_account, hup]
  · simp [link_oauth_account, hup, List.filter_append, List.length_append, hone]

theorem get_or_create_user_links_by_email_witness :
    get_or_create_user ouGit dbFix =
      .ok (uBob, (link_oauth_account dbFix uBob.id ouGit).2) ∧
    (link_oauth_account dbFix uBob.id ouGit).2.users = dbFix.users ∧
    ((link_oauth_account dbFix uBob.id ouGit).2.oauthAccounts.filter
        (fun a => a.userId == uBob.id)).length = 2 :=
  get_or_create_user_links_by_email ouGit dbFix uBob rfl rfl rfl rfl

/-- Claim C6: identity resolution is idempotent: if a first call of
`get_or_create_user` on a well-formed store returns a principal and store,
a second call with the same external identity returns the very same
principal (same id) and leaves the store exactly as it was — no duplicate
Principal or OAuthAccount row is created. -/
theorem get_or_create_user_idempotent (ou : OAuthUser) (db : DB)
    (hup : db.up = true) (hwf : DBWF db)
    (u1 : User) (db1 : DB)
    (h1 : get_or_create_user ou db = .ok (u1, db1)) :
    get_or_create_user ou db1 = .ok (u1, db1) := by
  obtain ⟨hlt, hnd, hfk⟩ := hwf
  cases hacc : findOAuthAccount db ou.provider ou.provider_id with
  | some a =>
      have hamem : a ∈ db.oauthAccounts := by
        unfold findOAuthAccount at hacc
        exact List.mem_of_find?_eq_some hacc
      obtain ⟨v, hvmem, hvid⟩ := hfk a hamem
      have hfu : findUserById db a.userId = some v := by
        unfold findUserById
        rw [← hvid]
        exact find?_id_of_mem_nodup hvmem hnd
      have hres : get_or_create_user ou db = .ok (toUser v, db) := by
        simp [get_or_create_user, get_user_by_oauth_provider, hup, hacc, hfu]
      rw [hres] at h1
      simp only [Except.ok.injEq, Prod.mk.injEq] at h1
      obtain ⟨hu, hdb⟩ := h1
      subst hu
      subst hdb
      exact hres
  | none =>
      have hub : get_user_by_oauth_provider db ou.provider ou.provider_id = none := by
        simp [get_user_by_oauth_provider, hup, hacc]
      unfold findOAuthAccount at hacc
      cases hem : get_user_by_email db ou.email with
      | some u =>
          have hem' : (db.users.find? (fun r => r.email == some ou.email)).map
              toUser = some u := by
            unfold get_user_by_email at hem
            rw [hup] at hem
            simpa using hem
          cases hurf : db.users.find? (fun r => r.email == some ou.email) with
          | none => rw [hurf] at hem'; exact absurd hem' (by simp)
          | some ur =>
              rw [hurf] at hem'
              have hure : toUser ur = u := by simpa using hem'
              have hurmem : ur ∈ db.users := List.mem_of_find?_eq_some hurf
              have huid : u.id = ur.id := by rw [← hure]; rfl
              have hres : get_or_create_user ou db =
                  .ok (u, (link_oauth_account db u.id ou).2) := by
                simp [get_or_create_user, hub, hem]
              rw [hres] at h1
              simp only [Except.ok.injEq, Prod.mk.injEq] at h1
              obtain ⟨hu, hdb⟩ := h1
              subst hu
              have hdbl : (link_oauth_account db u.id ou).2 =
                  { db with oauthAccounts := db.oauthAccounts ++
                      [{ provider := ou.provider, providerId := ou.provider_id,
                         email := ou.email, userId := u.id }] } := by
                simp [link_oauth_account, hup]
              rw [hdbl] at hdb
              subst hdb
              have hacc2 : findOAuthAccount
                  { db with oauthAccounts := db.oauthAccounts ++
                      [{ provider := ou.provider, providerId := ou.provider_id,
                         email := ou.email, userId := u.id }] }
                  ou.provider ou.provider_id =
                  some { provider := ou.provider, providerId := ou.provider_id,
                         email := ou.email, userId := u.id } := by
                unfold findOAuthAccount
                rw [show ({ db with oauthAccounts := db.oauthAccounts ++
                      [{ provider := ou.provider, providerId := ou.provider_id,
                         email := ou.email, userId := u.id }] } : DB).oauthAccounts =
                    db.oauthAccounts ++
                      [{ provider := ou.provider, providerId := ou.provider_id,
                         email := ou.email, userId := u.id }] from rfl]
                rw [find?_append_of_none _ _ _ hacc]
                simp
              have hfu2 : findUserById
                  { db with oauthAccounts := db.oauthAccounts ++
                      [{ provider := ou.provider, providerId := ou.provider_id,
                         email := ou.email, userId := u.id }] } u.id = some ur := by
                unfold findUserById
                rw [huid]
                exact find?_id_of_mem_nodup hurmem hnd
              rw [hup] at hacc2 hfu2
              simp [get_or_create_user, get_user_by_oauth_provider, hup,
                    hacc2, hfu2, hure]
      | none =>
          have hres : get_or_create_user ou db =
              .ok (toUser { id := db.nextUserId,
                            username := ou.username.getD (emailLocalPart ou.email),
                            email := some ou.email, isActive := true },
                   { db with
                       users := db.users ++
                         [{ id := db.nextUserId,
                            username := ou.username.getD (emailLocalPart ou.email),
                            email := some ou.email, isActive := true }],
                       oauthAccounts := db.oauthAccounts ++
                         [{ provider := ou.provider, providerId := ou.provider_id,
                            email := ou.email, userId := db.nextUserId }],
                       nextUserId := db.nextUserId + 1 }) := by
            simp [get_or_create_user, hub, hem, create_user_with_oauth, hup]
          rw [hres] at h1
          simp only [Except.ok.injEq, Prod.mk.injEq] at h1
          obtain ⟨hu, hdb⟩ := h1
          subst hu
          subst hdb
          have hold : db.users.find? (fun r => r.id == db.nextUserId) = none := by
            rw [List.find?_eq_none]
            intro x hx
            have hxlt := hlt x hx
            simp [Nat.ne_of_lt hxlt]
          have hacc2 : findOAuthAccount
              { db with
                  users := db.users ++
                    [{ id := db.nextUserId,
                       username := ou.username.getD (emailLocalPart ou.email),
                       email := some ou.email, isActive := true }],
                  oauthAccounts := db.oauthAccounts ++
                    [{ provider := ou.provider, providerId := ou.provider_id,
                       email := ou.email, userId := db.nextUserId }],
                  nextUserId := db.nextUserId + 1 }
              ou.provider ou.provider_id =
              some { provider := ou.provider, providerId := ou.provider_id,
                     email := ou.email, userId := db.nextUserId } := by
            unfold findOAuthAccount
            rw [show ({ db with
                  users := db.users ++
                    [{ id := db.nextUserId,
                       username := ou.username.getD (emailLocalPart ou.email),
                       email := some ou.email, isActive := true }],
                  oauthAccounts := db.oauthAccounts ++
                    [{ provider := ou.provider, providerId := ou.provider_id,
                       email := ou.email, userId := db.nextUserId }],
                  nextUserId := db.nextUserId + 1 } : DB).oauthAccounts =
                db.oauthAccounts ++
                  [{ provider := ou.provider, providerId := ou.provider_id,
                     email := ou.email, userId := db.nextUserId }] from rfl]
            rw [find?_append_of_none _ _ _ hacc]
            simp
          have hfu2 : findUserById
              { db with
                  users := db.users ++
                    [{ id := db.nextUserId,
                       username := ou.username.getD (emailLocalPart ou.email),
                       email := some ou.email, isActive := true }],
                  oauthAccounts := db.oauthAccounts ++
                    [{ provider := ou.provider, providerId := ou.provider_id,
                       email := ou.email, userId := db.nextUserId }],
                  nextUserId := db.nextUserId + 1 } db.nextUserId =
              some { id := db.nextUserId,
                     username := ou.username.getD (emailLocalPart ou.email),
                     email := some ou.email, isActive := true } := by
            unfold findUserById
            rw [show ({ db with
                  users := db.users ++
                    [{ id := db.nextUserId,
                       username := ou.username.getD (emailLocalPart ou.email),
                       email := some ou.email, isActive := true }],
                  oauthAccounts := db.oauthAccounts ++
                    [{ provider := ou.provider, providerId := ou.provider_id,
                       email := ou.email, userId := db.nextUserId }],
                  nextUserId := db.nextUserId + 1 } : DB).users =
                db.users ++
                  [{ id := db.nextUserId,
                     username := ou.username.getD (emailLocalPart ou.email),
                     email := some ou.email, isActive := true }] from rfl]
            rw [find?_append_of_none _ _ _ hold]
            simp
          rw [hup] at hacc2 hfu2
          simp [get_or_create_user, get_user_by_oauth_provider, hup,
                hacc2, hfu2]

theorem get_or_create_user_idempotent_witness :
    get_or_create_user ouW db1W = .ok (uW, db1W) :=
  get_or_create_user_idempotent ouW db0 rfl
    ⟨by simp [db0], by simp [db0], by simp [db0]⟩ uW db1W rfl

theorem dispatchExchange_cases (provider code : String) (ex : ExchangeOracle)
    (hp : provider = "google" ∨ provider = "github") :
    (∃ u, dispatchExchange provider code ex = .ok u) ∨
    (∃ m, dispatchExchange provider code ex =
        .error (.httpExc 400 (.oauthAuthFailed m) none)) ∨
    dispatchExchange provider code ex = .error .valueError := by
  rcases hp with h | h
  · subst h
    cases hx : ex "google" code with
    | ok u => exact Or.inl ⟨u, by simp [dispatchExchange, hx]⟩
    | oauthError m => exact Or.inr (Or.inl ⟨m, by simp [dispatchExchange, hx]⟩)
    | notConfigured => exact Or.inr (Or.inr (by simp [dispatchExchange, hx]))
  · subst h
    cases hx : ex "github" code with
    | ok u => exact Or.inl ⟨u, by simp [dispatchExchange, hx]⟩
    | oauthError m => exact Or.inr (Or.inl ⟨m, by simp [dispatchExchange, hx]⟩)
    | notConfigured => exact Or.inr (Or.inr (by simp [dispatchExchange, hx]))

theorem afterConsume_ne_unsupported (provider code : String)
    (ex : ExchangeOracle) (w1 : World)
    (hp : provider = "google" ∨ provider = "github") :
    (afterConsume provider code ex w1).1 ≠
      .err 400 .unsupportedProvider none := by
  intro hcontr
  unfold afterConsume at hcontr
  rcases dispatchExchange_cases provider code ex hp with ⟨u, hd⟩ | ⟨m, hd⟩ | hd
  · simp only [hd] at hcontr
    cases hg : get_or_create_user u w1.db with
    | error e =>
        simp only [hg] at hcontr
        have he := get_or_create_user_error_dbError _ _ _ hg
        subst he
        simp [respOfExc] at hcontr
    | ok ud =>
        obtain ⟨user, db1⟩ := ud
        simp only [hg] at hcontr
        cases hc : create_session_with_cache user w1.now db1 w1.cache with
        | mk res db2 =>
            simp only [hc] at hcontr
            cases res with
            | error e =>
                have hfst : (create_session_with_cache user w1.now db1
                    w1.cache).1 = .error e := by rw [hc]
                have he := create_session_with_cache_error_shape
                  user w1.now db1 w1.cache e hfst
                rcases he with he | he <;> subst he <;>
                  simp [respOfExc] at hcontr
            | ok trip =>
                obtain ⟨sid, db3, c2⟩ := trip
                simp at hcontr
  · simp only [hd] at hcontr
    simp [respOfExc] at hcontr
  · simp only [hd] at hcontr
    simp [respOfExc] at hcontr

/-- Claim C10: `oauth_login` is the only writer of `oauth_state:` entries and
stores only "google" or "github" (the invariant `StateInv` is preserved by
both routes), so in `oauth_callback`, once the stored state value has
matched the provider path parameter, the provider is necessarily one of the
two, and the trailing 400 "Unsupported OAuth provider" branch of the
exchange dispatch can never be the response. -/
theorem callback_unsupported_branch_unreachable :
    (∀ (provider nonce : String) (cfg : OAuthCfg)
        (authUrl : String → String → String) (w : World),
        StateInv w.cache →
        StateInv ((oauth_login provider nonce cfg authUrl w).2.cache)) ∧
    (∀ (provider code state : String) (err : Option String)
        (ex : ExchangeOracle) (w : World),
        StateInv w.cache →
        StateInv ((oauth_callback provider code state err ex w).2.cache)) ∧
    (∀ (provider code state : String) (ex : ExchangeOracle) (w : World),
        StateInv w.cache →
        (oauth_callback provider code state none ex w).1 ≠
          .err 400 .unsupportedProvider none) := by
  refine ⟨?_, ?_, ?_⟩
  · intro provider nonce cfg authUrl w hinv
    unfold oauth_login
    by_cases hp : provider = "google" ∨ provider = "github"
    · rw [if_pos hp]
      cases hset : redisSetState w.cache nonce provider with
      | error e =>
          simp only [hset]
          exact hinv
      | ok c1 =>
          simp only [hset]
          have hpres : StateInv c1 := by
            intro kv hkv
            rcases mem_oauthStates_setState hset hkv with h | h
            · rw [h]
              exact hp
            · exact hinv kv h
          by_cases hc : (provider = "google" && cfg.google) ||
              (provider = "github" && cfg.github)
          · rw [if_pos hc]
            exact hpres
          · rw [if_neg hc]
            exact hpres
    · rw [if_neg hp]
      exact hinv
  · intro provider code state err ex w hinv
    cases err with
    | some e => exact hinv
    | none =>
        cases hg : redisGetState w.cache state with
        | error e => simp only [oauth_callback, hg]; exact hinv
        | ok oreply =>
            cases oreply with
            | none => simp only [oauth_callback, hg]; exact hinv
            | some reply =>
                cases reply with
                | str v =>
                    simp only [oauth_callback, hg, decodeReply]
                    exact hinv
                | bytes stored =>
                    simp only [oauth_callback, hg, decodeReply]
                    by_cases hsp : stored = provider
                    · rw [if_pos hsp]
                      cases hdel : redisDeleteState w.cache state with
                      | error e =>
                          simp only [hdel]
                          exact hinv
                      | ok c1 =>
                          simp only [hdel]
                          intro kv hkv
                          rw [afterConsume_preserves_states] at hkv
                          exact hinv kv (mem_oauthStates_deleteState hdel hkv)
                    · rw [if_neg hsp]
                      exact hinv
  · intro provider code state ex w hinv
    cases hg : redisGetState w.cache state with
    | error e =>
        have he : e = Exc.connectionError := by
          cases hcb : w.cache with
          | disconnected => rw [hcb] at hg; simp [redisGetState] at hg
          | fake d => rw [hcb] at hg; simp [redisGetState] at hg
          | live d => rw [hcb] at hg; simp [redisGetState] at hg
          | liveFailing =>
              rw [hcb] at hg
              simp [redisGetState] at hg
              exact hg.symm
        subst he
        simp [oauth_callback, hg, respOfExc]
    | ok oreply =>
        cases oreply with
        | none => simp [oauth_callback, hg]
        | some reply =>
            cases reply with
            | str v => simp [oauth_callback, hg, decodeReply, respOfExc]
            | bytes stored =>
                simp only [oauth_callback, hg, decodeReply]
                by_cases hsp : stored = provider
                · rw [if_pos hsp]
                  obtain ⟨d, hb, hga⟩ := redisGetState_bytes hg
                  have hstored : stored = "google" ∨ stored = "github" := by
                    have hex : ∃ kv, d.oauthStates.find?
                        (fun kv => kv.1 == state) = some kv ∧ kv.2 = stored := by
                      simpa [getAssoc, Option.map_eq_some'] using hga
                    obtain ⟨kv, hfind, hsnd⟩ := hex
                    have hm := hinv kv
                      (by rw [hb]; exact List.mem_of_find?_eq_some hfind)
                    rw [hsnd] at hm
                    exact hm
                  have hp : provider = "google" ∨ provider = "github" := by
                    rw [← hsp]
                    exact hstored
                  rw [hb]
                  simp only [redisDeleteState]
                  exact afterConsume_ne_unsupported provider code ex _ hp
                · rw [if_neg hsp]
                  simp

theorem callback_unsupported_branch_unreachable_witness :
    (oauth_callback "google" "c" "n1" none exOKW wC9).1 ≠
      .err 400 .unsupportedProvider none :=
  callback_unsupported_branch_unreachable.2.2 "google" "c" "n1" exOKW wC9
    (by intro kv hkv
        simp only [wC9, oauthStatesOf] at hkv
        cases hkv with
        | head => exact Or.inl rfl
        | tail _ h => cases h)
